import Mathlib

/-!
Verification of the request gate (`src/middleware.ts`) and the guest
bootstrap route (`src/app/api/auth/guest/route.ts`).

Strings are shallowly embedded as `List Char`. Platform string APIs used
by the source (`String.prototype.startsWith`, `String.prototype.includes`,
`encodeURIComponent`, the WHATWG `URL` constructor and `URLSearchParams`)
are modelled as Lean functions over `List Char`, each documented at its
definition. The two route functions themselves are translated clause by
clause from the TypeScript source.
-/

set_option maxRecDepth 4000

abbrev Str := List Char

/-- Model of JavaScript `s.startsWith(p)`: `p` is a leading segment of `s`. -/
def leadsWith : Str → Str → Bool
  | _, [] => true
  | [], _ :: _ => false
  | c :: s, d :: p => if c = d then leadsWith s p else false

/-- Model of JavaScript `s.includes(sub)`: `sub` occurs contiguously in `s`. -/
def containsSub : Str → Str → Bool
  | [], sub => sub.isEmpty
  | c :: t, sub => leadsWith (c :: t) sub || containsSub t sub

/-- The literal `'/ping'` from `middleware.ts`. -/
def pingLit : Str := ['/', 'p', 'i', 'n', 'g']

/-- The literal `'/api/'` from `middleware.ts`. -/
def apiSlashLit : Str := ['/', 'a', 'p', 'i', '/']

/-- The literal `'/login'` shared by both source files. -/
def loginLit : Str := ['/', 'l', 'o', 'g', 'i', 'n']

/-- The literal `'/register'` from `middleware.ts`. -/
def registerLit : Str := ['/', 'r', 'e', 'g', 'i', 's', 't', 'e', 'r']

/-- The literal `'/'` (root path). -/
def rootLit : Str := ['/']

/-- The literal `'/chat'` from `middleware.ts`. -/
def chatLit : Str := ['/', 'c', 'h', 'a', 't']

/-- The literal `'/api/auth/guest'` appearing in the referer check and as the
guest bootstrap path. -/
def guestPathLit : Str :=
  ['/', 'a', 'p', 'i', '/', 'a', 'u', 't', 'h', '/', 'g', 'u', 'e', 's', 't']

/-- The literal `'redirectUrl='` (query key with equals sign) from the
template string in `middleware.ts`. -/
def redirectKeyEq : Str :=
  ['r', 'e', 'd', 'i', 'r', 'e', 'c', 't', 'U', 'r', 'l', '=']

/-- The literal `'redirectUrl'` passed to `searchParams.get` in the guest
route. -/
def redirectKeyLit : Str :=
  ['r', 'e', 'd', 'i', 'r', 'e', 'c', 't', 'U', 'r', 'l']

example : pingLit = "/ping".data := by decide
example : guestPathLit = "/api/auth/guest".data := by decide
example : registerLit = "/register".data := by decide

/-- Character kept verbatim by `encodeURIComponent`: ASCII alphanumerics and
`- _ . ! ~ * ' ( )`, per the ECMAScript definition. -/
def isUriUnreserved (c : Char) : Bool :=
  decide ((65 ≤ c.toNat ∧ c.toNat ≤ 90) ∨ (97 ≤ c.toNat ∧ c.toNat ≤ 122) ∨
    (48 ≤ c.toNat ∧ c.toNat ≤ 57) ∨ c.toNat = 45 ∨ c.toNat = 95 ∨
    c.toNat = 46 ∨ c.toNat = 33 ∨ c.toNat = 126 ∨ c.toNat = 42 ∨
    c.toNat = 39 ∨ c.toNat = 40 ∨ c.toNat = 41)

/-- UTF-8 encoding of a single code point, as a list of byte values. -/
def utf8Encode (c : Char) : List Nat :=
  let n := c.toNat
  if n < 128 then [n]
  else if n < 2048 then [192 + n / 64, 128 + n % 64]
  else if n < 65536 then [224 + n / 4096, 128 + (n / 64) % 64, 128 + n % 64]
  else [240 + n / 262144, 128 + (n / 4096) % 64, 128 + (n / 64) % 64, 128 + n % 64]

/-- Uppercase hexadecimal digit for a value below 16. -/
def hexDigitChar (n : Nat) : Char :=
  Char.ofNat (if n < 10 then 48 + n else 55 + n)

/-- Percent-escape of one byte: `%XY` with uppercase hex digits. -/
def pctByte (b : Nat) : Str := ['%', hexDigitChar (b / 16), hexDigitChar (b % 16)]

/-- Model of ECMAScript `encodeURIComponent`: unreserved characters are kept,
every other character is replaced by the percent-escapes of its UTF-8 bytes. -/
def encodeURIComponent : Str → Str
  | [] => []
  | c :: t =>
    (if isUriUnreserved c then [c] else ((utf8Encode c).map pctByte).flatten) ++
      encodeURIComponent t

/-- ASCII letter test, used for URL scheme recognition. -/
def isAsciiAlpha (c : Char) : Bool :=
  decide ((65 ≤ c.toNat ∧ c.toNat ≤ 90) ∨ (97 ≤ c.toNat ∧ c.toNat ≤ 122))

/-- Character allowed after the first letter of a URL scheme. -/
def isSchemeChar (c : Char) : Bool :=
  isAsciiAlpha c || decide (48 ≤ c.toNat ∧ c.toNat ≤ 57) ||
    decide (c.toNat = 43 ∨ c.toNat = 45 ∨ c.toNat = 46)

/-- Scheme continuation: scheme characters until `'://'` is reached. -/
def isSchemeTail : Str → Bool
  | [] => false
  | c :: t => if c = ':' then leadsWith t ['/', '/'] else isSchemeChar c && isSchemeTail t

/-- Recognises an absolute URL of the form `scheme://...` (letter-led scheme
followed by `'://'`), the shape relevant to the WHATWG `URL` constructor
uses in this code base. -/
def isAbsoluteUrl : Str → Bool
  | [] => false
  | c :: t => isAsciiAlpha c && isSchemeTail t

/-- Host segment of a URL remainder: characters up to the first `/`, `?` or
`#`, per the WHATWG host parser. -/
def hostPart : Str → Str
  | [] => []
  | c :: t => if c = '/' ∨ c = '?' ∨ c = '#' then [] else c :: hostPart t

/-- Origin of an absolute URL: scheme, `'://'`, and the host segment. On an
input without `'://'` (outside the modelled domain, where the WHATWG
constructor would throw) it returns the input unchanged. -/
def originOf : Str → Str
  | [] => []
  | c :: t =>
    if c = ':' ∧ leadsWith t ['/', '/'] = true then
      ':' :: '/' :: '/' :: hostPart (t.drop 2)
    else c :: originOf t

/-- Model of `new URL(input, base).toString()` restricted to the cases this
code base exercises: an absolute `input` (already in normalized serialized
form) is returned unchanged — the base is ignored — and a path-absolute
`input` (leading `/`) is resolved against the origin of `base`. -/
def resolveUrl (input base : Str) : Str :=
  if isAbsoluteUrl input then input else originOf base ++ input

/-- The string `/api/auth/guest?redirectUrl=${encodeURIComponent(request.url)}`
built by `middleware.ts` as the redirect target. -/
def guestRedirectTarget (url : Str) : Str :=
  guestPathLit ++ '?' :: (redirectKeyEq ++ encodeURIComponent url)

/-- Outcome of the request gate: the fixed `'pong'` 200 response, a
pass-through (`NextResponse.next()`), or a redirect whose serialized
location is carried. -/
inductive GateOutcome where
  | pong
  | next
  | redirect (location : Str)
  deriving DecidableEq

/-- Inbound request as the gate observes it: `request.nextUrl.pathname`,
`request.url`, presence of the `better-auth.session_token` cookie, and the
`referer` header (`none` when absent). -/
structure GateRequest where
  pathname : Str
  url : Str
  sessionCookie : Bool
  referer : Option Str

/-- The referer loop-break test `referer?.includes('/api/auth/guest')`:
false when the header is absent. -/
def refererHasGuest : Option Str → Bool
  | some r => containsSub r guestPathLit
  | none => false

/-- Translation of the `middleware` function of `src/middleware.ts`, clause
by clause: ping short-circuit, API pass-through, auth-page pass-through,
then — with no session cookie and a protected path (`'/'` or `'/chat...'`) —
either the referer exemption or the redirect to the guest bootstrap
endpoint; every other request passes through. -/
def middleware (req : GateRequest) : GateOutcome :=
  if leadsWith req.pathname pingLit then GateOutcome.pong
  else if leadsWith req.pathname apiSlashLit then GateOutcome.next
  else if req.pathname = loginLit ∨ req.pathname = registerLit then GateOutcome.next
  else if req.sessionCookie = false then
    if req.pathname = rootLit ∨ leadsWith req.pathname chatLit = true then
      if refererHasGuest req.referer then GateOutcome.next
      else GateOutcome.redirect (resolveUrl (guestRedirectTarget req.url) req.url)
    else GateOutcome.next
  else GateOutcome.next

/-- Query string of a URL: everything after the first `?`, `none` when the
URL has no `?`. -/
def afterFirstQ : Str → Option Str
  | [] => none
  | c :: t => if c = '?' then some t else afterFirstQ t

/-- Truncation at the first `#`, bounding the query string before a
fragment. -/
def takeUntilHash : Str → Str
  | [] => []
  | c :: t => if c = '#' then [] else c :: takeUntilHash t

/-- Truncation at the first `&`, the end of a single query parameter. -/
def takeUntilAmp : Str → Str
  | [] => []
  | c :: t => if c = '&' then [] else c :: takeUntilAmp t

/-- Strips a leading segment: `dropLead s p = some r` when `s = p ++ r`. -/
def dropLead : Str → Str → Option Str
  | s, [] => some s
  | [], _ :: _ => none
  | c :: s, d :: p => if c = d then dropLead s p else none

/-- Raw (undecoded) value of the `redirectUrl` query parameter of a
serialized URL, taken verbatim up to the next `&`; used to state what the
gate's redirect location carries. -/
def redirectUrlParamOf (target : Str) : Option Str :=
  match afterFirstQ target with
  | none => none
  | some q => (dropLead q redirectKeyEq).map takeUntilAmp

/-- Location of a redirect outcome, `none` for the other outcomes. -/
def redirectTarget : GateOutcome → Option Str
  | GateOutcome.redirect l => some l
  | _ => none

/-- Value of a hexadecimal digit character, `none` otherwise. -/
def hexVal (c : Char) : Option Nat :=
  if 48 ≤ c.toNat ∧ c.toNat ≤ 57 then some (c.toNat - 48)
  else if 65 ≤ c.toNat ∧ c.toNat ≤ 70 then some (c.toNat - 55)
  else if 97 ≤ c.toNat ∧ c.toNat ≤ 102 then some (c.toNat - 87)
  else none

/-- Percent-decoding of a query component to bytes, per the
`application/x-www-form-urlencoded` parser: `%XY` becomes one byte, `+`
becomes a space, a malformed escape is kept verbatim, and any other
character contributes its code point. -/
def pctDecodeBytes : Str → List Nat
  | [] => []
  | '%' :: h1 :: h2 :: t =>
    match hexVal h1, hexVal h2 with
    | some a, some b => (16 * a + b) :: pctDecodeBytes t
    | _, _ => 37 :: pctDecodeBytes (h1 :: h2 :: t)
  | '+' :: t => 32 :: pctDecodeBytes t
  | c :: t => c.toNat :: pctDecodeBytes t

/-- Continuation-byte test for UTF-8 decoding. -/
def isCont (b : Nat) : Bool := decide (128 ≤ b ∧ b < 192)

/-- The replacement character emitted for invalid UTF-8 input. -/
def replChar : Char := Char.ofNat 65533

/-- UTF-8 decoding step with a structural fuel bound (the list length
suffices, since every step consumes at least one byte): one-, two-, three-
and four-byte sequences are reassembled from their payload bits and a
broken sequence yields the replacement character. Overlong-form rejection
is not modelled; it does not arise for the inputs this code base
produces. -/
def utf8DecodeAux : Nat → List Nat → Str
  | 0, _ => []
  | _ + 1, [] => []
  | fuel + 1, b :: t =>
    if b < 128 then Char.ofNat b :: utf8DecodeAux fuel t
    else if b < 194 then replChar :: utf8DecodeAux fuel t
    else if b < 224 then
      match t with
      | b2 :: t2 =>
        if isCont b2 then Char.ofNat ((b - 192) * 64 + (b2 - 128)) :: utf8DecodeAux fuel t2
        else replChar :: utf8DecodeAux fuel (b2 :: t2)
      | [] => [replChar]
    else if b < 240 then
      match t with
      | b2 :: b3 :: t3 =>
        if isCont b2 && isCont b3 then
          Char.ofNat ((b - 224) * 4096 + (b2 - 128) * 64 + (b3 - 128)) :: utf8DecodeAux fuel t3
        else replChar :: utf8DecodeAux fuel t
      | _ => [replChar]
    else
      match t with
      | b2 :: b3 :: b4 :: t4 =>
        if isCont b2 && isCont b3 && isCont b4 then
          Char.ofNat ((b - 240) * 262144 + (b2 - 128) * 4096 + (b3 - 128) * 64 +
            (b4 - 128)) :: utf8DecodeAux fuel t4
        else replChar :: utf8DecodeAux fuel t
      | _ => [replChar]

/-- UTF-8 decoding of a byte list back to characters. -/
def utf8Decode (l : List Nat) : Str := utf8DecodeAux l.length l

/-- Full decoding of one query component: percent-decoding to bytes followed
by UTF-8 decoding. -/
def decodeQueryComponent (s : Str) : Str := utf8Decode (pctDecodeBytes s)

/-- Splitting of a query string on `&`. -/
def splitOnAmp : Str → List Str
  | [] => [[]]
  | c :: t =>
    if c = '&' then [] :: splitOnAmp t
    else
      match splitOnAmp t with
      | [] => [[c]]
      | h :: r => (c :: h) :: r

/-- Splitting of one query segment at its first `=` into name and value; a
segment without `=` has the empty value. -/
def splitAtEq : Str → Str × Str
  | [] => ([], [])
  | c :: t =>
    if c = '=' then ([], t)
    else
      let p := splitAtEq t
      (c :: p.1, p.2)

/-- Model of `new URL(url).searchParams.get(name)`: the query string is split
on `&`, empty segments are dropped, each segment is split at its first `=`,
names and values are form-urlencoded-decoded, and the first value whose
decoded name matches is returned. -/
def getSearchParam (url name : Str) : Option Str :=
  let q := match afterFirstQ url with
    | none => []
    | some r => takeUntilHash r
  let segs := (splitOnAmp q).filter (fun s => !s.isEmpty)
  let pairs := segs.map splitAtEq
  (pairs.find? (fun p => decodeQueryComponent p.1 == name)).map
    (fun p => decodeQueryComponent p.2)

example :
    getSearchParam
      ("http://localhost:3000/api/auth/guest?redirectUrl=http%3A%2F%2Flocalhost%3A3000%2Fchat%2F42".data)
      redirectKeyLit = some ("http://localhost:3000/chat/42".data) := by decide

example : getSearchParam ("http://localhost:3000/api/auth/guest".data) redirectKeyLit = none := by
  decide

/-- Session object as the guest route observes it through
`auth.api.getSession`: the `user` field is `some ()` exactly when the
session carries a user object (the truthiness test `session?.user`). -/
structure Session where
  user : Option Unit
  deriving DecidableEq

/-- Result of one call into the external auth framework: a returned value,
or a thrown exception (caught by the route's `try`/`catch`). -/
inductive ApiResult (α : Type) where
  | ok (value : α)
  | threw
  deriving DecidableEq

/-- Response of `auth.api.signInAnonymous({asResponse: true})`: its `ok`
flag and its `set-cookie` header (`none` when `headers.get` returns
null). -/
structure AuthResponse where
  ok : Bool
  setCookie : Option Str
  deriving DecidableEq

/-- Behaviour of the external Session Store during one request: what
`auth.api.getSession` and `auth.api.signInAnonymous` each return or
throw. The incoming headers are fixed for the request, so each call is a
single value. -/
structure SessionStore where
  getSession : ApiResult (Option Session)
  signInAnonymous : ApiResult AuthResponse

/-- Truthiness of `session?.user`. -/
def hasUser : Option Session → Bool
  | some s => s.user.isSome
  | none => false

/-- Redirect response of the guest route: serialized location and the
`set-cookie` header, if any. -/
structure GuestResponse where
  location : Str
  setCookie : Option Str
  deriving DecidableEq

/-- Observable result of one run of the guest route handler: the response,
plus whether `auth.api.signInAnonymous` was invoked (used to state that the
existing-session branch creates no new session). -/
structure GuestResult where
  response : GuestResponse
  signInCalled : Bool
  deriving DecidableEq

/-- The expression `searchParams.get('redirectUrl') || '/'` of the guest
route: the raw parameter, with both a missing parameter and the (falsy)
empty string replaced by `'/'`. -/
def requestedRedirect (url : Str) : Str :=
  match getSearchParam url redirectKeyLit with
  | some v => if v = [] then rootLit else v
  | none => rootLit

/-- Translation of the `GET` handler of `src/app/api/auth/guest/route.ts`:
an existing session with a user short-circuits to a redirect; otherwise
`signInAnonymous` is called and, on a non-ok response, the handler
redirects to `/login`; on success the redirect to `redirectUrl` carries
the auth response's `set-cookie` header (the copy is guarded by the
truthiness test `if (cookies)`, so a null — and the degenerate empty —
header is not attached). Any exception thrown by either call is caught
and converted to the `/login` redirect. -/
def GET (store : SessionStore) (url : Str) : GuestResult :=
  let redirectUrl := requestedRedirect url
  match store.getSession with
  | ApiResult.threw => ⟨⟨resolveUrl loginLit url, none⟩, false⟩
  | ApiResult.ok sessionOpt =>
    if hasUser sessionOpt then ⟨⟨resolveUrl redirectUrl url, none⟩, false⟩
    else
      match store.signInAnonymous with
      | ApiResult.threw => ⟨⟨resolveUrl loginLit url, none⟩, true⟩
      | ApiResult.ok response =>
        if response.ok = false then ⟨⟨resolveUrl loginLit url, none⟩, true⟩
        else
          let cookieHeader := match response.setCookie with
            | some c => if c = [] then none else some c
            | none => none
          ⟨⟨resolveUrl redirectUrl url, cookieHeader⟩, true⟩

/-! Helper lemmas about the embedded string primitives. -/

theorem leadsWith_iff (s p : Str) : leadsWith s p = true ↔ ∃ t, s = p ++ t := by
  induction p generalizing s with
  | nil =>
    cases s <;> simp [leadsWith]
  | cons d p ih =>
    cases s with
    | nil => simp [leadsWith]
    | cons c s =>
      by_cases h : c = d
      · subst h
        simp [leadsWith, ih]
      · simp [leadsWith, h]

theorem leadsWith_append (p t : Str) : leadsWith (p ++ t) p = true := by
  induction p with
  | nil => cases t <;> simp [leadsWith]
  | cons c p ih => simp [leadsWith, ih]

/-- Evaluation of the gate on a protected path with no session cookie: the
referer exemption decides between pass-through and the guest redirect. -/
theorem gate_eval (req : GateRequest)
    (hprot : req.pathname = rootLit ∨ leadsWith req.pathname chatLit = true)
    (hcookie : req.sessionCookie = false) :
    middleware req =
      if refererHasGuest req.referer then GateOutcome.next
      else GateOutcome.redirect (resolveUrl (guestRedirectTarget req.url) req.url) := by
  obtain h | h := hprot
  · unfold middleware
    rw [h, hcookie]
    simp [leadsWith, pingLit, apiSlashLit, loginLit, registerLit, rootLit, chatLit]
  · obtain ⟨t, ht⟩ := (leadsWith_iff _ _).mp h
    unfold middleware
    rw [ht, hcookie]
    simp [leadsWith, leadsWith_append, pingLit, apiSlashLit, loginLit, registerLit,
      rootLit, chatLit]

/-- The exclusion `_next/static` of the matcher regex in `middleware.ts`. -/
def nextStaticLit : Str :=
  ['/', '_', 'n', 'e', 'x', 't', '/', 's', 't', 'a', 't', 'i', 'c']

/-- The exclusion `_next/image` of the matcher regex. -/
def nextImageLit : Str :=
  ['/', '_', 'n', 'e', 'x', 't', '/', 'i', 'm', 'a', 'g', 'e']

/-- The exclusion `favicon.ico` of the matcher regex. -/
def faviconLit : Str := ['/', 'f', 'a', 'v', 'i', 'c', 'o', 'n', '.', 'i', 'c', 'o']

/-- The exclusion `sitemap.xml` of the matcher regex. -/
def sitemapLit : Str := ['/', 's', 'i', 't', 'e', 'm', 'a', 'p', '.', 'x', 'm', 'l']

/-- The exclusion `robots.txt` of the matcher regex. -/
def robotsLit : Str := ['/', 'r', 'o', 'b', 'o', 't', 's', '.', 't', 'x', 't']

example : nextStaticLit = "/_next/static".data := by decide
example : faviconLit = "/favicon.ico".data := by decide

/-- Static-asset paths: those the negative lookahead of the `config.matcher`
regex excludes from the middleware, taken as path beginnings right after
the leading slash. -/
def staticAsset (p : Str) : Bool :=
  leadsWith p nextStaticLit || leadsWith p nextImageLit || leadsWith p faviconLit ||
    leadsWith p sitemapLit || leadsWith p robotsLit

/-- C1: a protected path (root or a chat path) with no session cookie and a
referer that does not qualify for the guest-bootstrap exemption is never
passed through; the gate's outcome is the redirect to the guest bootstrap
endpoint carrying the encoded original URL. -/
theorem gate_protected_no_cookie_redirects (req : GateRequest)
    (hprot : req.pathname = rootLit ∨ leadsWith req.pathname chatLit = true)
    (hcookie : req.sessionCookie = false)
    (href : refererHasGuest req.referer = false) :
    middleware req =
      GateOutcome.redirect (resolveUrl (guestRedirectTarget req.url) req.url) ∧
      middleware req ≠ GateOutcome.next := by
  rw [gate_eval req hprot hcookie, href]
  simp

/-- Witness for C1 at a concrete chat-path request with no cookie and no
referer. -/
theorem gate_protected_no_cookie_redirects_witness :
    middleware ⟨"/chat/42".data, "http://localhost:3000/chat/42".data, false, none⟩ =
      GateOutcome.redirect
        (resolveUrl (guestRedirectTarget ("http://localhost:3000/chat/42".data))
          ("http://localhost:3000/chat/42".data)) ∧
      middleware ⟨"/chat/42".data, "http://localhost:3000/chat/42".data, false, none⟩ ≠
        GateOutcome.next :=
  gate_protected_no_cookie_redirects
    ⟨"/chat/42".data, "http://localhost:3000/chat/42".data, false, none⟩
    (by decide) (by decide) (by decide)

/-- C3: on a protected path the presence of the session cookie alone makes
the gate pass the request through; no server-side validity is consulted. -/
theorem gate_cookie_passes (req : GateRequest)
    (hprot : req.pathname = rootLit ∨ leadsWith req.pathname chatLit = true)
    (hcookie : req.sessionCookie = true) :
    middleware req = GateOutcome.next := by
  obtain h | h := hprot
  · unfold middleware
    rw [h, hcookie]
    simp [leadsWith, pingLit, apiSlashLit, loginLit, registerLit]
  · obtain ⟨t, ht⟩ := (leadsWith_iff _ _).mp h
    unfold middleware
    rw [ht, hcookie]
    simp [leadsWith, pingLit, apiSlashLit, loginLit, registerLit, chatLit]

/-- Witness for C3 at the root path with the cookie present. -/
theorem gate_cookie_passes_witness :
    middleware ⟨"/".data, "http://localhost:3000/".data, true, none⟩ = GateOutcome.next :=
  gate_cookie_passes ⟨"/".data, "http://localhost:3000/".data, true, none⟩
    (by decide) (by decide)

/-- C4: a path outside the protected set — an API path, the login page, the
register page, or a static-asset path — always passes through, with or
without the session cookie. -/
theorem gate_public_passes (req : GateRequest)
    (h : leadsWith req.pathname apiSlashLit = true ∨ req.pathname = loginLit ∨
      req.pathname = registerLit ∨ staticAsset req.pathname = true) :
    middleware req = GateOutcome.next := by
  obtain h | h | h | h := h
  · obtain ⟨t, ht⟩ := (leadsWith_iff _ _).mp h
    unfold middleware
    rw [ht]
    simp [leadsWith, pingLit, apiSlashLit]
  · unfold middleware
    rw [h]
    simp [leadsWith, pingLit, apiSlashLit, loginLit]
  · unfold middleware
    rw [h]
    simp [leadsWith, pingLit, apiSlashLit, loginLit, registerLit]
  · simp only [staticAsset, Bool.or_eq_true] at h
    obtain ((((h | h) | h) | h) | h) := h <;>
      · obtain ⟨t, ht⟩ := (leadsWith_iff _ _).mp h
        unfold middleware
        rw [ht]
        simp [leadsWith, pingLit, apiSlashLit, loginLit, registerLit, rootLit, chatLit,
          nextStaticLit, nextImageLit, faviconLit, sitemapLit, robotsLit]

/-- Witness for C4: an API path with no cookie, and a static asset with a
cookie, both pass through. -/
theorem gate_public_passes_witness :
    middleware ⟨"/api/chat".data, "http://localhost:3000/api/chat".data, false, none⟩ =
      GateOutcome.next :=
  gate_public_passes ⟨"/api/chat".data, "http://localhost:3000/api/chat".data, false, none⟩
    (by decide)

/-- C5: a protected path with no session cookie whose referer mentions the
guest bootstrap endpoint is passed through (redirect-loop break). -/
theorem gate_referer_exemption (req : GateRequest)
    (hprot : req.pathname = rootLit ∨ leadsWith req.pathname chatLit = true)
    (hcookie : req.sessionCookie = false)
    (href : refererHasGuest req.referer = true) :
    middleware req = GateOutcome.next := by
  rw [gate_eval req hprot hcookie, href]
  simp

/-- Witness for C5 at the root path with a guest-bootstrap referer. -/
theorem gate_referer_exemption_witness :
    middleware ⟨"/".data, "http://localhost:3000/".data, false,
      some ("http://localhost:3000/api/auth/guest?redirectUrl=x".data)⟩ =
      GateOutcome.next :=
  gate_referer_exemption
    ⟨"/".data, "http://localhost:3000/".data, false,
      some ("http://localhost:3000/api/auth/guest?redirectUrl=x".data)⟩
    (by decide) (by decide) (by decide)

/-- C6 (amended): every gate outcome is the fixed ping response, a
pass-through, or the single guest-bootstrap redirect carrying the encoded
original URL; a redirect to the login page never occurs. -/
theorem gate_three_outcomes (req : GateRequest) :
    middleware req = GateOutcome.pong ∨ middleware req = GateOutcome.next ∨
      middleware req =
        GateOutcome.redirect (resolveUrl (guestRedirectTarget req.url) req.url) := by
  unfold middleware
  repeat' split
  all_goals first
    | exact Or.inl rfl
    | exact Or.inr (Or.inl rfl)
    | exact Or.inr (Or.inr rfl)

/-- Counterexample for C6 as stated: the request for `/ping` with no cookie
yields the fixed `pong` response, which is neither a pass-through nor any
redirect, so the gate has a fourth outcome and no login redirect exists. -/
theorem gate_counterexample_C6 :
    middleware ⟨"/ping".data, "http://localhost:3000/ping".data, false, none⟩ =
        GateOutcome.pong ∧
      middleware ⟨"/ping".data, "http://localhost:3000/ping".data, false, none⟩ ≠
        GateOutcome.next ∧
      redirectTarget
        (middleware ⟨"/ping".data, "http://localhost:3000/ping".data, false, none⟩) =
        none := by
  decide

/-! Lemmas about the characters produced by `encodeURIComponent`, needed to
recover the `redirectUrl` parameter from the gate's redirect location. -/

theorem utf8Encode_lt (c : Char) : ∀ b ∈ utf8Encode c, b < 256 := by
  have hbound : c.toNat < 1114112 := by
    rcases c.valid with h | ⟨h1, h2⟩
    · exact Nat.lt_trans h (by decide)
    · exact h2
  intro b hb
  simp only [utf8Encode] at hb
  split at hb
  · simp at hb
    omega
  · split at hb
    · simp at hb
      rcases hb with rfl | rfl <;> omega
    · split at hb
      · simp at hb
        rcases hb with rfl | rfl | rfl <;> omega
      · simp at hb
        rcases hb with rfl | rfl | rfl | rfl <;> omega

theorem hexDigitChar_no_delim (m : Nat) (h : m < 16) :
    hexDigitChar m ≠ '?' ∧ hexDigitChar m ≠ '&' := by
  unfold hexDigitChar
  interval_cases m <;> exact ⟨by decide, by decide⟩

theorem pctByte_no_delim (b : Nat) (hb : b < 256) :
    ∀ c ∈ pctByte b, c ≠ '?' ∧ c ≠ '&' := by
  intro c hc
  simp only [pctByte, List.mem_cons, List.not_mem_nil, or_false] at hc
  rcases hc with rfl | rfl | rfl
  · exact ⟨by decide, by decide⟩
  · exact hexDigitChar_no_delim _ (by omega)
  · exact hexDigitChar_no_delim _ (by omega)

theorem isUriUnreserved_no_delim (c : Char) (h : isUriUnreserved c = true) :
    c ≠ '?' ∧ c ≠ '&' := by
  constructor <;> rintro rfl <;> exact absurd h (by decide)

theorem encodeURIComponent_no_delim (s : Str) :
    ∀ c ∈ encodeURIComponent s, c ≠ '?' ∧ c ≠ '&' := by
  induction s with
  | nil =>
    intro c hc
    simp [encodeURIComponent] at hc
  | cons c0 t ih =>
    intro c hc
    simp only [encodeURIComponent, List.mem_append] at hc
    rcases hc with hc | hc
    · split at hc
      · rename_i hu
        simp only [List.mem_singleton] at hc
        subst hc
        exact isUriUnreserved_no_delim _ hu
      · simp only [List.mem_flatten, List.mem_map] at hc
        obtain ⟨l, ⟨b, hb, rfl⟩, hcl⟩ := hc
        exact pctByte_no_delim b (utf8Encode_lt c0 b hb) c hcl
    · exact ih c hc

theorem afterFirstQ_append (a b : Str) (h : ∀ c ∈ a, c ≠ '?') :
    afterFirstQ (a ++ b) = afterFirstQ b := by
  induction a with
  | nil => rfl
  | cons c t ih =>
    have hc : c ≠ '?' := h c (List.mem_cons_self c t)
    simp only [List.cons_append, afterFirstQ, if_neg hc]
    exact ih fun x hx => h x (List.mem_cons_of_mem _ hx)

theorem takeUntilAmp_eq_self (s : Str) (h : ∀ c ∈ s, c ≠ '&') :
    takeUntilAmp s = s := by
  induction s with
  | nil => rfl
  | cons c t ih =>
    have hc : c ≠ '&' := h c (List.mem_cons_self c t)
    simp only [takeUntilAmp, if_neg hc]
    exact congrArg (c :: ·) (ih fun x hx => h x (List.mem_cons_of_mem _ hx))

theorem dropLead_append (p t : Str) : dropLead (p ++ t) p = some t := by
  induction p with
  | nil => cases t <;> simp [dropLead]
  | cons c p ih => simp [dropLead, ih]

/-- Extraction of the `redirectUrl` parameter from the serialized guest
redirect location: with a question-mark-free origin in front, the parameter
is exactly the percent-encoded original URL. -/
theorem redirectUrlParamOf_guest (pre u : Str) (hpre : ∀ c ∈ pre, c ≠ '?') :
    redirectUrlParamOf (pre ++ guestRedirectTarget u) =
      some (encodeURIComponent u) := by
  have hpg : ∀ c ∈ pre ++ guestPathLit, c ≠ '?' := by
    intro c hc
    rcases List.mem_append.mp hc with h | h
    · exact hpre c h
    · exact (by decide : ∀ x ∈ guestPathLit, x ≠ '?') c h
  have hassoc : pre ++ guestRedirectTarget u =
      (pre ++ guestPathLit) ++ '?' :: (redirectKeyEq ++ encodeURIComponent u) := by
    simp [guestRedirectTarget, List.append_assoc]
  unfold redirectUrlParamOf
  rw [hassoc, afterFirstQ_append _ _ hpg]
  have h1 : afterFirstQ ('?' :: (redirectKeyEq ++ encodeURIComponent u)) =
      some (redirectKeyEq ++ encodeURIComponent u) := by
    simp [afterFirstQ]
  rw [h1]
  show (dropLead (redirectKeyEq ++ encodeURIComponent u) redirectKeyEq).map takeUntilAmp =
    some (encodeURIComponent u)
  rw [dropLead_append]
  exact congrArg some
    (takeUntilAmp_eq_self _ fun c hc => (encodeURIComponent_no_delim u c hc).2)

/-- C2: on a protected path with no session cookie and no qualifying
referer, the gate's redirect location carries a `redirectUrl` query
parameter equal to the percent-encoding of the original request URL. -/
theorem gate_redirect_param_encoded (req : GateRequest)
    (hprot : req.pathname = rootLit ∨ leadsWith req.pathname chatLit = true)
    (hcookie : req.sessionCookie = false)
    (href : refererHasGuest req.referer = false)
    (hq : ∀ c ∈ originOf req.url, c ≠ '?') :
    (redirectTarget (middleware req)).bind redirectUrlParamOf =
      some (encodeURIComponent req.url) := by
  rw [gate_eval req hprot hcookie, href]
  have habs : isAbsoluteUrl (guestRedirectTarget req.url) = false := by
    simp [guestRedirectTarget, guestPathLit, isAbsoluteUrl, isAsciiAlpha]
  simp only [Bool.false_eq_true, if_false, redirectTarget, Option.bind_some,
    Option.some_bind, resolveUrl, habs]
  exact redirectUrlParamOf_guest _ _ hq

/-- Witness for C2 at a concrete chat-path request. -/
theorem gate_redirect_param_encoded_witness :
    (redirectTarget
        (middleware ⟨"/chat/7".data, "http://localhost:3000/chat/7".data, false, none⟩)).bind
        redirectUrlParamOf =
      some (encodeURIComponent ("http://localhost:3000/chat/7".data)) :=
  gate_redirect_param_encoded
    ⟨"/chat/7".data, "http://localhost:3000/chat/7".data, false, none⟩
    (by decide) (by decide) (by decide) (by decide)

/-- Concrete request URL used by the guest-route witnesses. -/
def urlA : Str := "http://localhost:3000/api/auth/guest?redirectUrl=%2Fchat%2F9".data

/-- Concrete set-cookie header value used by the guest-route witnesses. -/
def cookieA : Str := "better-auth.session_token=abc; Path=/; HttpOnly".data

/-- C7: with an existing session carrying a user, the guest route redirects
to the requested URL, attaches no set-cookie header, and never calls the
anonymous sign-in (no new session is created). -/
theorem guest_existing_session (store : SessionStore) (url : Str) (s : Session)
    (hsess : store.getSession = ApiResult.ok (some s)) (hu : s.user.isSome = true) :
    (GET store url).response.location = resolveUrl (requestedRedirect url) url ∧
      (GET store url).response.setCookie = none ∧
      (GET store url).signInCalled = false := by
  unfold GET
  rw [hsess]
  simp [hasUser, hu]

/-- Witness for C7: a store with a live user session and a throwing sign-in
endpoint still yields the plain redirect without calling sign-in. -/
theorem guest_existing_session_witness :
    (GET ⟨ApiResult.ok (some ⟨some ()⟩), ApiResult.threw⟩ urlA).response.location =
        resolveUrl (requestedRedirect urlA) urlA ∧
      (GET ⟨ApiResult.ok (some ⟨some ()⟩), ApiResult.threw⟩ urlA).response.setCookie = none ∧
      (GET ⟨ApiResult.ok (some ⟨some ()⟩), ApiResult.threw⟩ urlA).signInCalled = false :=
  guest_existing_session ⟨ApiResult.ok (some ⟨some ()⟩), ApiResult.threw⟩ urlA
    ⟨some ()⟩ rfl rfl

/-- C8: with no usable session and a successful anonymous sign-in, the guest
route redirects to the requested URL (default `/` when the parameter is
absent) and carries over the set-cookie header of the sign-in response. -/
theorem guest_new_session (store : SessionStore) (url : Str) (so : Option Session)
    (resp : AuthResponse)
    (hsess : store.getSession = ApiResult.ok so) (hno : hasUser so = false)
    (hsig : store.signInAnonymous = ApiResult.ok resp) (hok : resp.ok = true)
    (hck : ∀ c, resp.setCookie = some c → c ≠ []) :
    (GET store url).response.location = resolveUrl (requestedRedirect url) url ∧
      (GET store url).response.setCookie = resp.setCookie ∧
      (getSearchParam url redirectKeyLit = none → requestedRedirect url = rootLit) := by
  unfold GET
  rw [hsess, hsig]
  simp only [hno, Bool.false_eq_true, if_false, hok, Bool.true_eq_false]
  refine ⟨trivial, ?_, ?_⟩
  · cases hsc : resp.setCookie with
    | none => simp
    | some c => simp [hck c hsc]
  · intro h
    unfold requestedRedirect
    rw [h]

/-- Witness for C8: a store with no session and a succeeding sign-in whose
response carries a cookie header. -/
theorem guest_new_session_witness :
    (GET ⟨ApiResult.ok none, ApiResult.ok ⟨true, some cookieA⟩⟩ urlA).response.location =
        resolveUrl (requestedRedirect urlA) urlA ∧
      (GET ⟨ApiResult.ok none, ApiResult.ok ⟨true, some cookieA⟩⟩ urlA).response.setCookie =
        some cookieA ∧
      (getSearchParam urlA redirectKeyLit = none → requestedRedirect urlA = rootLit) :=
  guest_new_session ⟨ApiResult.ok none, ApiResult.ok ⟨true, some cookieA⟩⟩ urlA none
    ⟨true, some cookieA⟩ rfl rfl rfl rfl
    (by
      intro c h
      injection h with h2
      exact h2 ▸ (by decide))

/-- C9: when the session lookup throws, or the sign-in throws, or the
sign-in response is not ok, the guest route answers with the redirect to
the login page and no set-cookie header; the handler is a total function,
so no exception escapes it. -/
theorem guest_failure_login_redirect (store : SessionStore) (url : Str)
    (h : store.getSession = ApiResult.threw ∨
      (∃ so, store.getSession = ApiResult.ok so ∧ hasUser so = false ∧
        (store.signInAnonymous = ApiResult.threw ∨
          ∃ resp, store.signInAnonymous = ApiResult.ok resp ∧ resp.ok = false))) :
    (GET store url).response = ⟨resolveUrl loginLit url, none⟩ := by
  unfold GET
  rcases h with h | ⟨so, hso, hnu, h⟩
  · rw [h]
  · rw [hso]
    simp only [hnu, Bool.false_eq_true, if_false]
    rcases h with h | ⟨resp, hr, hok⟩
    · rw [h]
    · rw [hr]
      simp [hok]

/-- Witness for C9: a session lookup that throws yields the login redirect
with no cookie. -/
theorem guest_failure_login_redirect_witness :
    (GET ⟨ApiResult.threw, ApiResult.threw⟩ urlA).response =
      ⟨resolveUrl loginLit urlA, none⟩ :=
  guest_failure_login_redirect ⟨ApiResult.threw, ApiResult.threw⟩ urlA (Or.inl rfl)

/-- C10: the guest route applies no validation to `redirectUrl`: an absolute
URL supplied as the parameter — including one on a foreign host — becomes
the redirect target verbatim, both when a session already exists and when a
fresh anonymous session is created. -/
theorem guest_redirect_unvalidated (url r : Str) (s1 s2 : SessionStore) (sess : Session)
    (resp : AuthResponse)
    (hp : getSearchParam url redirectKeyLit = some r) (habs : isAbsoluteUrl r = true)
    (h1 : s1.getSession = ApiResult.ok (some sess)) (hu : sess.user.isSome = true)
    (h2 : s2.getSession = ApiResult.ok none)
    (h3 : s2.signInAnonymous = ApiResult.ok resp) (hok : resp.ok = true) :
    (GET s1 url).response.location = r ∧ (GET s2 url).response.location = r := by
  have hne : r ≠ [] := by
    intro he
    subst he
    exact absurd habs (by decide)
  have hr : requestedRedirect url = r := by
    unfold requestedRedirect
    rw [hp]
    simp [hne]
  have hres : resolveUrl r url = r := by
    simp [resolveUrl, habs]
  constructor
  · unfold GET
    rw [h1]
    simp [hasUser, hu, hr, hres]
  · unfold GET
    rw [h2, h3]
    simp [hasUser, hok, hr, hres]

/-- Witness for C10 at a cross-host absolute `redirectUrl`. -/
theorem guest_redirect_unvalidated_witness :
    (GET ⟨ApiResult.ok (some ⟨some ()⟩), ApiResult.threw⟩
        ("http://localhost:3000/api/auth/guest?redirectUrl=https%3A%2F%2Fevil.example%2Fphish".data)).response.location =
        ("https://evil.example/phish".data) ∧
      (GET ⟨ApiResult.ok none, ApiResult.ok ⟨true, some cookieA⟩⟩
        ("http://localhost:3000/api/auth/guest?redirectUrl=https%3A%2F%2Fevil.example%2Fphish".data)).response.location =
        ("https://evil.example/phish".data) :=
  guest_redirect_unvalidated
    ("http://localhost:3000/api/auth/guest?redirectUrl=https%3A%2F%2Fevil.example%2Fphish".data)
    ("https://evil.example/phish".data)
    ⟨ApiResult.ok (some ⟨some ()⟩), ApiResult.threw⟩
    ⟨ApiResult.ok none, ApiResult.ok ⟨true, some cookieA⟩⟩
    ⟨some ()⟩ ⟨true, some cookieA⟩
    (by decide) (by decide) rfl rfl rfl rfl rfl
